import Mathlib

/-!
Verification of the rust-todo orchestration layer.

Shallow embedding of the repository's source:
- `src/models.rs`       : the `Todo` data model and request/response shapes
- `src/repository.rs`   : `SqliteTodoRepository`, modelled as pure functions on a
                          list of rows (the `todos` table in insertion order)
- `src/external_service.rs` : the `NotificationService` error taxonomy
- `src/main_complex.rs` : the axum handlers (the Orchestrator): `create_todo`,
                          `create_batch`, `get_todo`, `update_todo`, `delete_todo`,
                          `delete_completed`, `list_todos`

`Uuid` values are modelled as `Nat`; `DateTime<Utc>` timestamps as `Nat` (the
stored RFC3339 form is sortable, so chronological order is order on `Nat`).
The random `Uuid::new_v4()` and `Utc::now()` reads are passed in as explicit
arguments; the notifier is an explicit function argument so that theorems can
quantify over arbitrary (including always-failing) notifier behaviour.
Each handler returns its response, the resulting store, the repository calls it
issued, and the notification attempts it made.
-/

namespace RustTodo

/-- `uuid::Uuid`, modelled as an opaque natural number. -/
abbrev Uuid := Nat

/-- `chrono::DateTime<Utc>`, modelled as a natural number (RFC3339 text is sortable). -/
abbrev Timestamp := Nat

/-- `Todo` from src/models.rs lines 5-13. -/
structure Todo where
  id : Uuid
  title : String
  description : Option String
  completed : Bool
  created_at : Timestamp
  updated_at : Timestamp
  deriving DecidableEq, Repr

/-- `CreateTodoRequest` from src/models.rs lines 15-19. -/
structure CreateTodoRequest where
  title : String
  description : Option String
  deriving DecidableEq, Repr

/-- `UpdateTodoRequest` from src/models.rs lines 21-26. -/
structure UpdateTodoRequest where
  title : Option String
  description : Option String
  completed : Option Bool
  deriving DecidableEq, Repr

/-- `BatchCreateResponse` from src/models.rs lines 33-38. -/
structure BatchCreateResponse where
  created : List Todo
  total : Nat
  errors : List String
  deriving DecidableEq, Repr

/-- `DeleteCompletedResponse` from src/models.rs lines 51-54. -/
structure DeleteCompletedResponse where
  deleted_count : Nat
  deriving DecidableEq, Repr

/-- `RepositoryError` from src/repository.rs lines 9-19 (the `sqlx::Error` payload
of `Database` is modelled as its message string). -/
inductive RepositoryError where
  | Database (msg : String)
  | NotFound (id : Uuid)
  | InvalidData (msg : String)
  deriving DecidableEq, Repr

/-- `ServiceError` from src/external_service.rs lines 6-16. -/
inductive ServiceError where
  | NotificationFailed (msg : String)
  | Timeout
  | RateLimited
  deriving DecidableEq, Repr

/-- The `todos` SQLite table, modelled as the list of rows in insertion order. -/
abbrev Store := List Todo

/-- `SqliteTodoRepository::create` (src/repository.rs lines 64-97): INSERT a row;
returns the given todo unchanged on success.
Modelled from the spec: the duplicate-key failure comes from the primary-key
constraint of `migrations/001_create_todos.sql`, which is not under src/; per the
spec (§4.1), `item.id` must not already exist, and violating this fails with a
`Database` (duplicate key) error. -/
def repo_create (s : Store) (todo : Todo) : Except RepositoryError (Store × Todo) :=
  if s.any (fun r => r.id == todo.id) then
    .error (.Database "UNIQUE constraint failed: todos.id")
  else
    .ok (s ++ [todo], todo)

/-- `SqliteTodoRepository::get` (src/repository.rs lines 100-137): SELECT by id;
`NotFound` when no row matches. -/
def repo_get (s : Store) (id : Uuid) : Except RepositoryError Todo :=
  match s.find? (fun r => r.id == id) with
  | some todo => .ok todo
  | none => .error (.NotFound id)

/-- The SQL `ORDER BY created_at DESC` comparison used by `list`. -/
def createdAtDesc (a b : Todo) : Prop := b.created_at ≤ a.created_at

instance : DecidableRel createdAtDesc := fun a b => Nat.decLe b.created_at a.created_at

instance : IsTotal Todo createdAtDesc :=
  ⟨fun a b => Nat.le_total b.created_at a.created_at⟩

instance : IsTrans Todo createdAtDesc :=
  ⟨fun _ _ _ hab hbc => Nat.le_trans hbc hab⟩

/-- `SqliteTodoRepository::list` (src/repository.rs lines 140-172):
`SELECT ... ORDER BY created_at DESC`; an empty table is a valid `Ok([])`. -/
def repo_list (s : Store) : Except RepositoryError (List Todo) :=
  .ok (List.insertionSort createdAtDesc s)

/-- `SqliteTodoRepository::update` (src/repository.rs lines 175-204):
`UPDATE todos SET title, description, completed, updated_at WHERE id` (`id` and
`created_at` are not in the SET list); `NotFound` when zero rows were affected;
returns the given todo on success. -/
def repo_update (s : Store) (todo : Todo) : Except RepositoryError (Store × Todo) :=
  if s.any (fun r => r.id == todo.id) then
    .ok (s.map (fun r =>
      if r.id == todo.id then
        { r with title := todo.title, description := todo.description,
                 completed := todo.completed, updated_at := todo.updated_at }
      else r), todo)
  else
    .error (.NotFound todo.id)

/-- `SqliteTodoRepository::delete` (src/repository.rs lines 207-229):
`DELETE FROM todos WHERE id`; `NotFound` when zero rows were affected. -/
def repo_delete (s : Store) (id : Uuid) : Except RepositoryError Store :=
  if s.any (fun r => r.id == id) then
    .ok (s.filter (fun r => !(r.id == id)))
  else
    .error (.NotFound id)

/-- `SqliteTodoRepository::create_batch` (src/repository.rs lines 232-254):
inserts the todos one at a time, in input order, via `create`; the first failing
insert aborts the loop (the `?` operator) and its error is returned, while rows
inserted before it remain in the table. The pair holds the resulting table and
the `Result` value. -/
def repo_create_batch (s : Store) : List Todo → Store × Except RepositoryError (List Todo)
  | [] => (s, .ok [])
  | todo :: rest =>
    match repo_create s todo with
    | .error e => (s, .error e)
    | .ok (s2, created) =>
      match repo_create_batch s2 rest with
      | (s3, .ok createds) => (s3, .ok (created :: createds))
      | (s3, .error e) => (s3, .error e)

/-- `SqliteTodoRepository::delete_completed` (src/repository.rs lines 257-273):
`DELETE FROM todos WHERE completed = true`; returns the rows-affected count. -/
def repo_delete_completed (s : Store) : Store × Nat :=
  (s.filter (fun r => !r.completed), (s.filter (fun r => r.completed)).length)

/-- One attempted call on the `NotificationService` trait
(src/external_service.rs lines 18-23). -/
inductive NotifyCall where
  | created (id : Uuid) (title : String)
  | completed (id : Uuid) (title : String)
  | batchSummary (count : Nat)
  deriving DecidableEq, Repr

/-- A notifier backend: the outcome each attempted call would produce. -/
abbrev Notifier := NotifyCall → Except ServiceError Unit

/-- One call issued on the `TodoRepository` trait (src/repository.rs lines 21-30). -/
inductive RepoCall where
  | create (todo : Todo)
  | get (id : Uuid)
  | listAll
  | update (todo : Todo)
  | delete (id : Uuid)
  | createBatch (todos : List Todo)
  | deleteCompleted
  deriving DecidableEq, Repr

/-- An axum error response `(StatusCode, &str)`. -/
structure HttpError where
  status : Nat
  message : String
  deriving DecidableEq, Repr

/-- What a handler run produces: the response returned to the caller, the store
after the run, the repository calls issued, and the notification attempts made. -/
structure HandlerOut (α : Type) where
  response : Except HttpError α
  store : Store
  repoCalls : List RepoCall
  notifications : List NotifyCall

/-- The `Todo` literal built by `create_todo` (src/main_complex.rs lines 78-85)
and per item by `create_batch` (lines 124-131): `completed = false`, `created_at`
and `updated_at` from two successive `Utc::now()` reads. -/
def mkTodo (payload : CreateTodoRequest) (freshId : Uuid) (now1 now2 : Timestamp) : Todo :=
  { id := freshId, title := payload.title, description := payload.description,
    completed := false, created_at := now1, updated_at := now2 }

/-- `create_todo` handler (src/main_complex.rs lines 72-112): build the todo,
`repository.create`; on repository error return 500; on success attempt the
created-notification, whose error is only logged (`warn!`), and return the item. -/
def create_todo (notifier : Notifier) (s : Store) (payload : CreateTodoRequest)
    (freshId : Uuid) (now1 now2 : Timestamp) : HandlerOut Todo :=
  let todo := mkTodo payload freshId now1 now2
  match repo_create s todo with
  | .error _ =>
      { response := .error { status := 500, message := "Failed to create todo" },
        store := s, repoCalls := [.create todo], notifications := [] }
  | .ok (s2, created_todo) =>
      let call := NotifyCall.created created_todo.id created_todo.title
      let _ := notifier call
      { response := .ok created_todo, store := s2,
        repoCalls := [.create todo], notifications := [call] }

/-- `create_batch` handler (src/main_complex.rs lines 115-155): map each request
to a fresh todo, record `total`, call `repository.create_batch`; on success
attempt the batch-summary notification (`let _ = ...`) and return
`{total, created, errors: []}`; on repository error return an opaque 500. -/
def create_batch (notifier : Notifier) (s : Store)
    (payload : List (CreateTodoRequest × Uuid × Timestamp × Timestamp)) :
    HandlerOut BatchCreateResponse :=
  let todos := payload.map (fun p => mkTodo p.1 p.2.1 p.2.2.1 p.2.2.2)
  let total := todos.length
  match repo_create_batch s todos with
  | (s2, .ok created) =>
      let call := NotifyCall.batchSummary created.length
      let _ := notifier call
      { response := .ok { created := created, total := total, errors := [] },
        store := s2, repoCalls := [.createBatch todos], notifications := [call] }
  | (s2, .error _) =>
      { response := .error { status := 500, message := "Batch creation failed" },
        store := s2, repoCalls := [.createBatch todos], notifications := [] }

/-- `get_todo` handler (src/main_complex.rs lines 158-178). -/
def get_todo (s : Store) (id : Uuid) : HandlerOut Todo :=
  match repo_get s id with
  | .ok todo =>
      { response := .ok todo, store := s, repoCalls := [.get id], notifications := [] }
  | .error (.NotFound _) =>
      { response := .error { status := 404, message := "Todo not found" },
        store := s, repoCalls := [.get id], notifications := [] }
  | .error _ =>
      { response := .error { status := 500, message := "Failed to retrieve todo" },
        store := s, repoCalls := [.get id], notifications := [] }

/-- The field-merge step of `update_todo` (src/main_complex.rs lines 204-214;
identical logic at src/main_simple.rs lines 320-330): each field is overwritten
only if present in the request, `description` is wrapped in `Some`, and
`updated_at` is set to the current time. -/
def applyUpdate (todo : Todo) (payload : UpdateTodoRequest) (now : Timestamp) : Todo :=
  let todo := match payload.title with
    | some title => { todo with title := title }
    | none => todo
  let todo := match payload.description with
    | some description => { todo with description := some description }
    | none => todo
  let todo := match payload.completed with
    | some completed => { todo with completed := completed }
    | none => todo
  { todo with updated_at := now }

/-- `update_todo` handler (src/main_complex.rs lines 181-234): fetch the item
(404 on `NotFound`, without touching the store or any notifier); remember
`was_completed`; merge the optional fields; `repository.update`; if the item was
not completed before and is completed after, attempt the completed-notification,
whose result is discarded (`let _ = ...`); return the updated item. -/
def update_todo (notifier : Notifier) (s : Store) (id : Uuid)
    (payload : UpdateTodoRequest) (now : Timestamp) : HandlerOut Todo :=
  match repo_get s id with
  | .error (.NotFound _) =>
      { response := .error { status := 404, message := "Todo not found" },
        store := s, repoCalls := [.get id], notifications := [] }
  | .error _ =>
      { response := .error { status := 500, message := "Failed to update todo" },
        store := s, repoCalls := [.get id], notifications := [] }
  | .ok todo =>
      let was_completed := todo.completed
      let todo2 := applyUpdate todo payload now
      match repo_update s todo2 with
      | .error _ =>
          { response := .error { status := 500, message := "Failed to update todo" },
            store := s, repoCalls := [.get id, .update todo2], notifications := [] }
      | .ok (s2, updated_todo) =>
          if !was_completed && updated_todo.completed then
            let call := NotifyCall.completed updated_todo.id updated_todo.title
            let _ := notifier call
            { response := .ok updated_todo, store := s2,
              repoCalls := [.get id, .update todo2], notifications := [call] }
          else
            { response := .ok updated_todo, store := s2,
              repoCalls := [.get id, .update todo2], notifications := [] }

/-- `delete_todo` handler (src/main_complex.rs lines 237-257). -/
def delete_todo (s : Store) (id : Uuid) : HandlerOut Unit :=
  match repo_delete s id with
  | .ok s2 =>
      { response := .ok (), store := s2, repoCalls := [.delete id], notifications := [] }
  | .error (.NotFound _) =>
      { response := .error { status := 404, message := "Todo not found" },
        store := s, repoCalls := [.delete id], notifications := [] }
  | .error _ =>
      { response := .error { status := 500, message := "Failed to delete todo" },
        store := s, repoCalls := [.delete id], notifications := [] }

/-- `delete_completed` handler (src/main_complex.rs lines 260-275). -/
def delete_completed (s : Store) : HandlerOut DeleteCompletedResponse :=
  let (s2, count) := repo_delete_completed s
  { response := .ok { deleted_count := count }, store := s2,
    repoCalls := [.deleteCompleted], notifications := [] }

/-- `list_todos` handler (src/main_complex.rs lines 56-69). -/
def list_todos (s : Store) : HandlerOut (List Todo) :=
  match repo_list s with
  | .ok todos =>
      { response := .ok todos, store := s, repoCalls := [.listAll], notifications := [] }
  | .error _ =>
      { response := .error { status := 500, message := "Failed to retrieve todos" },
        store := s, repoCalls := [.listAll], notifications := [] }

/-- One inbound mutating request handled by the orchestration layer. -/
inductive Op where
  | create (payload : CreateTodoRequest) (freshId : Uuid) (now1 now2 : Timestamp)
  | createBatch (payload : List (CreateTodoRequest × Uuid × Timestamp × Timestamp))
  | update (id : Uuid) (payload : UpdateTodoRequest) (now : Timestamp)
  | delete (id : Uuid)
  | deleteCompleted

/-- The store after one handler run. -/
def applyOp (notifier : Notifier) (s : Store) : Op → Store
  | .create payload freshId now1 now2 => (create_todo notifier s payload freshId now1 now2).store
  | .createBatch payload => (create_batch notifier s payload).store
  | .update id payload now => (update_todo notifier s id payload now).store
  | .delete id => (delete_todo s id).store
  | .deleteCompleted => (delete_completed s).store

/-- Whether a notification attempt is a completed-notification
(`send_completed_notification`, src/external_service.rs lines 91-102). -/
def isCompletedCall : NotifyCall → Bool
  | .completed _ _ => true
  | _ => false

/-- Number of completed-notification attempts in a handler's attempt log. -/
def completedAttempts (calls : List NotifyCall) : Nat :=
  (calls.filter isCompletedCall).length

/-- The non-empty-title invariant over a store. -/
abbrev TitleInv (s : Store) : Prop := ∀ t ∈ s, t.title ≠ ""

/-- A request whose supplied title strings are all non-empty. -/
def opTitlesNonEmpty : Op → Prop
  | .create payload _ _ _ => payload.title ≠ ""
  | .createBatch payload => ∀ p ∈ payload, p.1.title ≠ ""
  | .update _ payload _ => ∀ x, payload.title = some x → x ≠ ""
  | .delete _ => True
  | .deleteCompleted => True

/-! ### Helper lemmas -/

theorem applyUpdate_id (todo : Todo) (payload : UpdateTodoRequest) (now : Timestamp) :
    (applyUpdate todo payload now).id = todo.id := by
  unfold applyUpdate
  cases payload.title <;> cases payload.description <;> cases payload.completed <;> rfl

theorem applyUpdate_created_at (todo : Todo) (payload : UpdateTodoRequest) (now : Timestamp) :
    (applyUpdate todo payload now).created_at = todo.created_at := by
  unfold applyUpdate
  cases payload.title <;> cases payload.description <;> cases payload.completed <;> rfl

theorem applyUpdate_updated_at (todo : Todo) (payload : UpdateTodoRequest) (now : Timestamp) :
    (applyUpdate todo payload now).updated_at = now := by
  unfold applyUpdate
  cases payload.title <;> cases payload.description <;> cases payload.completed <;> rfl

theorem applyUpdate_title (todo : Todo) (payload : UpdateTodoRequest) (now : Timestamp) :
    (applyUpdate todo payload now).title =
      match payload.title with
      | some title => title
      | none => todo.title := by
  unfold applyUpdate
  cases payload.title <;> cases payload.description <;> cases payload.completed <;> rfl

theorem applyUpdate_description (todo : Todo) (payload : UpdateTodoRequest) (now : Timestamp) :
    (applyUpdate todo payload now).description =
      match payload.description with
      | some description => some description
      | none => todo.description := by
  unfold applyUpdate
  cases payload.title <;> cases payload.description <;> cases payload.completed <;> rfl

theorem applyUpdate_completed (todo : Todo) (payload : UpdateTodoRequest) (now : Timestamp) :
    (applyUpdate todo payload now).completed =
      match payload.completed with
      | some completed => completed
      | none => todo.completed := by
  unfold applyUpdate
  cases payload.title <;> cases payload.description <;> cases payload.completed <;> rfl

theorem repo_get_find? (s : Store) (id : Uuid) (pre : Todo)
    (h : repo_get s id = .ok pre) : s.find? (fun r => r.id == id) = some pre := by
  unfold repo_get at h
  cases hf : s.find? (fun r => r.id == id) with
  | some t => rw [hf] at h; cases h; rfl
  | none => rw [hf] at h; cases h

theorem repo_get_id (s : Store) (id : Uuid) (pre : Todo)
    (h : repo_get s id = .ok pre) : pre.id = id := by
  have hf := repo_get_find? s id pre h
  have := List.find?_some hf
  exact eq_of_beq this

theorem repo_get_mem (s : Store) (id : Uuid) (pre : Todo)
    (h : repo_get s id = .ok pre) : pre ∈ s :=
  List.mem_of_find?_eq_some (repo_get_find? s id pre h)

theorem repo_create_ok (s : Store) (todo : Todo) (s2 : Store) (c : Todo)
    (h : repo_create s todo = .ok (s2, c)) :
    s2 = s ++ [todo] ∧ c = todo ∧ s.any (fun r => r.id == todo.id) = false := by
  unfold repo_create at h
  by_cases hb : s.any (fun r => r.id == todo.id) = true
  · rw [if_pos hb] at h; cases h
  · rw [if_neg hb] at h
    cases h
    exact ⟨rfl, rfl, Bool.not_eq_true _ ▸ hb⟩

/-- The handler-visible shape of a successful `update_todo` run: when the fetch
succeeds, the repository update succeeds as well and the handler returns the
merged item; the completed-notification is attempted exactly when the
`!was_completed && updated_todo.completed` guard holds. -/
theorem update_todo_of_get (notifier : Notifier) (s : Store) (id : Uuid)
    (payload : UpdateTodoRequest) (now : Timestamp) (pre : Todo)
    (hget : repo_get s id = .ok pre) :
    update_todo notifier s id payload now =
      { response := .ok (applyUpdate pre payload now),
        store := s.map (fun r =>
          if r.id == (applyUpdate pre payload now).id then
            { r with title := (applyUpdate pre payload now).title,
                     description := (applyUpdate pre payload now).description,
                     completed := (applyUpdate pre payload now).completed,
                     updated_at := (applyUpdate pre payload now).updated_at }
          else r),
        repoCalls := [.get id, .update (applyUpdate pre payload now)],
        notifications :=
          if !pre.completed && (applyUpdate pre payload now).completed then
            [.completed (applyUpdate pre payload now).id (applyUpdate pre payload now).title]
          else [] } := by
  have hany : s.any (fun r => r.id == (applyUpdate pre payload now).id) = true := by
    refine List.any_eq_true.mpr ⟨pre, repo_get_mem s id pre hget, ?_⟩
    rw [applyUpdate_id]
    exact beq_self_eq_true _
  simp only [update_todo, hget, repo_update, hany, if_true]
  by_cases hq : (!pre.completed && (applyUpdate pre payload now).completed) = true
  · rw [if_pos hq, if_pos hq]
  · rw [if_neg hq, if_neg hq]

theorem find?_map_of_pred_eq (f : Todo → Todo) (p : Todo → Bool)
    (hf : ∀ r, p (f r) = p r) :
    ∀ l : List Todo, (l.map f).find? p = (l.find? p).map f := by
  intro l
  induction l with
  | nil => rfl
  | cons a l ih =>
    simp only [List.map_cons]
    by_cases hp : p a = true
    · rw [List.find?_cons_of_pos _ (by rw [hf]; exact hp), List.find?_cons_of_pos _ hp]
      rfl
    · rw [List.find?_cons_of_neg _ (by rw [hf]; simpa using hp),
        List.find?_cons_of_neg _ (by simpa using hp), ih]

/-- The row stored for `id` after a successful `update_todo` run: the merged
fields of the fetched row, with `id` and `created_at` those of the stored row. -/
theorem update_todo_store_find? (notifier : Notifier) (s : Store) (id : Uuid)
    (payload : UpdateTodoRequest) (now : Timestamp) (pre : Todo)
    (hget : repo_get s id = .ok pre) :
    (update_todo notifier s id payload now).store.find? (fun r => r.id == id) =
      some { pre with title := (applyUpdate pre payload now).title,
                      description := (applyUpdate pre payload now).description,
                      completed := (applyUpdate pre payload now).completed,
                      updated_at := (applyUpdate pre payload now).updated_at } := by
  rw [update_todo_of_get notifier s id payload now pre hget]
  have hid : (applyUpdate pre payload now).id = id := by
    rw [applyUpdate_id]; exact repo_get_id s id pre hget
  have hf : ∀ r : Todo,
      ((if r.id == (applyUpdate pre payload now).id then
          { r with title := (applyUpdate pre payload now).title,
                   description := (applyUpdate pre payload now).description,
                   completed := (applyUpdate pre payload now).completed,
                   updated_at := (applyUpdate pre payload now).updated_at }
        else r).id == id) = (r.id == id) := by
    intro r
    by_cases hr : (r.id == (applyUpdate pre payload now).id) = true
    · rw [if_pos hr]
    · rw [if_neg hr]
  rw [find?_map_of_pred_eq _ _ hf s, repo_get_find? s id pre hget]
  have hpre : pre.id = id := repo_get_id s id pre hget
  simp [hpre, hid]

theorem repo_create_batch_cons_error (s : Store) (t : Todo) (rest : List Todo)
    (e : RepositoryError) (hc : repo_create s t = .error e) :
    repo_create_batch s (t :: rest) = (s, .error e) := by
  simp [repo_create_batch, hc]

theorem repo_create_batch_cons_ok (s : Store) (t : Todo) (rest : List Todo)
    (s2 : Store) (c : Todo) (hc : repo_create s t = .ok (s2, c)) :
    repo_create_batch s (t :: rest) =
      ((repo_create_batch s2 rest).1,
        match (repo_create_batch s2 rest).2 with
        | .ok createds => .ok (c :: createds)
        | .error e => .error e) := by
  simp only [repo_create_batch, hc]
  rcases hr : repo_create_batch s2 rest with ⟨s3, r⟩
  cases r <;> simp

theorem repo_create_batch_store_pred (P : Todo → Prop) :
    ∀ (todos : List Todo) (s : Store), (∀ t ∈ s, P t) → (∀ t ∈ todos, P t) →
      ∀ t ∈ (repo_create_batch s todos).1, P t := by
  intro todos
  induction todos with
  | nil =>
    intro s hs _ t ht
    exact hs t ht
  | cons a rest ih =>
    intro s hs hts t ht
    rcases hc : repo_create s a with e | ⟨s2, c⟩
    · rw [repo_create_batch_cons_error s a rest e hc] at ht
      exact hs t ht
    · obtain ⟨hs2, hca, -⟩ := repo_create_ok s a s2 c hc
      rw [repo_create_batch_cons_ok s a rest s2 c hc] at ht
      refine ih s2 ?_ (fun x hx => hts x (List.mem_cons_of_mem a hx)) t ht
      intro x hx
      rw [hs2] at hx
      rcases List.mem_append.mp hx with hx | hx
      · exact hs x hx
      · rcases List.mem_singleton.mp hx with rfl
        exact hts _ (List.mem_cons_self _ _)

/-! ### Claim theorems -/

/-- C1: for every update on an existing item, the orchestrator attempts exactly
one completed-notification if and only if the stored `completed` value before
the update is `false` and the value after the update is `true`; the transitions
false→false, true→true and true→false attempt none. -/
theorem update_completed_notification_rule (notifier : Notifier) (s : Store)
    (id : Uuid) (payload : UpdateTodoRequest) (now : Timestamp) (pre : Todo)
    (hget : repo_get s id = .ok pre) :
    completedAttempts (update_todo notifier s id payload now).notifications =
      if pre.completed = false ∧ (applyUpdate pre payload now).completed = true
      then 1 else 0 := by
  rw [update_todo_of_get notifier s id payload now pre hget]
  by_cases hq : (!pre.completed && (applyUpdate pre payload now).completed) = true
  · have hp : pre.completed = false ∧ (applyUpdate pre payload now).completed = true := by
      simpa [Bool.and_eq_true, Bool.not_eq_true'] using hq
    simp only [hq, if_true, if_pos hp]
    rfl
  · have hp : ¬(pre.completed = false ∧ (applyUpdate pre payload now).completed = true) := by
      simpa [Bool.and_eq_true, Bool.not_eq_true'] using hq
    simp only [if_neg hq, if_neg hp]
    rfl

/-- C1 witness: completing an incomplete item attempts exactly one
completed-notification. -/
theorem update_completed_notification_rule_witness :
    completedAttempts (update_todo (fun _ => Except.error .RateLimited)
        [⟨1, "a", none, false, 0, 0⟩] 1 ⟨none, none, some true⟩ 5).notifications =
      if (⟨1, "a", none, false, 0, 0⟩ : Todo).completed = false ∧
         (applyUpdate ⟨1, "a", none, false, 0, 0⟩ ⟨none, none, some true⟩ 5).completed = true
      then 1 else 0 :=
  update_completed_notification_rule (fun _ => Except.error .RateLimited)
    [⟨1, "a", none, false, 0, 0⟩] 1 ⟨none, none, some true⟩ 5
    ⟨1, "a", none, false, 0, 0⟩ rfl

/-- C2: whenever the Repository call succeeds, create and update return that
success result to the caller for every notifier backend — in particular for one
whose every call fails with any `ServiceError` — and the returned item is the
repository's result, unaltered. -/
theorem notifier_failure_invisible (notifier : Notifier) (s : Store)
    (payload : CreateTodoRequest) (freshId : Uuid) (now1 now2 : Timestamp)
    (id : Uuid) (up : UpdateTodoRequest) (now : Timestamp)
    (s2 : Store) (t : Todo) (pre : Todo) (s3 : Store) (t2 : Todo)
    (hc : repo_create s (mkTodo payload freshId now1 now2) = .ok (s2, t))
    (hg : repo_get s id = .ok pre)
    (hu : repo_update s (applyUpdate pre up now) = .ok (s3, t2)) :
    (create_todo notifier s payload freshId now1 now2).response = .ok t ∧
    (update_todo notifier s id up now).response = .ok t2 := by
  constructor
  · simp only [create_todo, hc]
  · simp only [update_todo, hg, hu]
    split <;> rfl

/-- C2 witness: with an always-failing notifier, a concrete create and a
concrete update both still return the repository's success result. -/
theorem notifier_failure_invisible_witness :
    (create_todo (fun _ => Except.error .Timeout) [⟨1, "a", none, false, 0, 0⟩]
        ⟨"b", none⟩ 2 1 2).response = .ok ⟨2, "b", none, false, 1, 2⟩ ∧
    (update_todo (fun _ => Except.error .Timeout) [⟨1, "a", none, false, 0, 0⟩]
        1 ⟨none, none, some true⟩ 3).response = .ok ⟨1, "a", none, true, 0, 3⟩ :=
  notifier_failure_invisible (fun _ => Except.error .Timeout)
    [⟨1, "a", none, false, 0, 0⟩] ⟨"b", none⟩ 2 1 2 1 ⟨none, none, some true⟩ 3
    [⟨1, "a", none, false, 0, 0⟩, ⟨2, "b", none, false, 1, 2⟩] ⟨2, "b", none, false, 1, 2⟩
    ⟨1, "a", none, false, 0, 0⟩ [⟨1, "a", none, true, 0, 3⟩] ⟨1, "a", none, true, 0, 3⟩
    rfl rfl rfl

/-- C6: an update whose target id has no stored row returns 404 `NotFound`,
issues only the `get` repository call (never `update`), attempts no
notification, and leaves the store unchanged. -/
theorem update_missing_id_not_found (notifier : Notifier) (s : Store) (id : Uuid)
    (payload : UpdateTodoRequest) (now : Timestamp)
    (h : s.find? (fun r => r.id == id) = none) :
    update_todo notifier s id payload now =
      { response := .error { status := 404, message := "Todo not found" },
        store := s, repoCalls := [.get id], notifications := [] } := by
  simp only [update_todo, repo_get, h]

/-- C6 witness: updating an absent id on a concrete store returns 404 with the
store untouched, only a `get` issued and no notification attempted. -/
theorem update_missing_id_not_found_witness :
    update_todo (fun _ => Except.error .Timeout) [⟨2, "b", none, false, 0, 0⟩]
        1 ⟨some "x", none, some true⟩ 7 =
      { response := .error { status := 404, message := "Todo not found" },
        store := [⟨2, "b", none, false, 0, 0⟩], repoCalls := [.get 1],
        notifications := [] } :=
  update_missing_id_not_found (fun _ => Except.error .Timeout)
    [⟨2, "b", none, false, 0, 0⟩] 1 ⟨some "x", none, some true⟩ 7 rfl

/-- C7: after a successful update, every field omitted from the request (and
always `id` and `created_at`) is unchanged in the stored row, `updated_at` is
set to the update's clock read, and so does not decrease whenever that read is
at least the pre-update value. -/
theorem update_fields_frame (notifier : Notifier) (s : Store) (id : Uuid)
    (payload : UpdateTodoRequest) (now : Timestamp) (pre : Todo)
    (hget : repo_get s id = .ok pre) :
    ∃ post : Todo,
      (update_todo notifier s id payload now).response = .ok (applyUpdate pre payload now) ∧
      (update_todo notifier s id payload now).store.find? (fun r => r.id == id) = some post ∧
      (payload.title = none → post.title = pre.title) ∧
      (payload.description = none → post.description = pre.description) ∧
      (payload.completed = none → post.completed = pre.completed) ∧
      post.id = pre.id ∧
      post.created_at = pre.created_at ∧
      post.updated_at = now ∧
      (pre.updated_at ≤ now → pre.updated_at ≤ post.updated_at) := by
  refine ⟨_, ?_, update_todo_store_find? notifier s id payload now pre hget,
    ?_, ?_, ?_, rfl, rfl, ?_, ?_⟩
  · rw [update_todo_of_get notifier s id payload now pre hget]
  · intro h
    show (applyUpdate pre payload now).title = pre.title
    rw [applyUpdate_title, h]
  · intro h
    show (applyUpdate pre payload now).description = pre.description
    rw [applyUpdate_description, h]
  · intro h
    show (applyUpdate pre payload now).completed = pre.completed
    rw [applyUpdate_completed, h]
  · show (applyUpdate pre payload now).updated_at = now
    exact applyUpdate_updated_at pre payload now
  · intro h
    show pre.updated_at ≤ (applyUpdate pre payload now).updated_at
    rw [applyUpdate_updated_at]
    exact h

/-- C7 witness: a concrete update that supplies only `completed` leaves title,
description, id and created_at unchanged and sets updated_at to the clock read. -/
theorem update_fields_frame_witness :
    ∃ post : Todo,
      (update_todo (fun _ => Except.error .Timeout) [⟨1, "t", some "d", false, 0, 2⟩]
          1 ⟨none, none, some true⟩ 5).response
        = .ok (applyUpdate ⟨1, "t", some "d", false, 0, 2⟩ ⟨none, none, some true⟩ 5) ∧
      (update_todo (fun _ => Except.error .Timeout) [⟨1, "t", some "d", false, 0, 2⟩]
          1 ⟨none, none, some true⟩ 5).store.find? (fun r => r.id == 1) = some post ∧
      ((⟨none, none, some true⟩ : UpdateTodoRequest).title = none →
        post.title = (⟨1, "t", some "d", false, 0, 2⟩ : Todo).title) ∧
      ((⟨none, none, some true⟩ : UpdateTodoRequest).description = none →
        post.description = (⟨1, "t", some "d", false, 0, 2⟩ : Todo).description) ∧
      ((⟨none, none, some true⟩ : UpdateTodoRequest).completed = none →
        post.completed = (⟨1, "t", some "d", false, 0, 2⟩ : Todo).completed) ∧
      post.id = (⟨1, "t", some "d", false, 0, 2⟩ : Todo).id ∧
      post.created_at = (⟨1, "t", some "d", false, 0, 2⟩ : Todo).created_at ∧
      post.updated_at = 5 ∧
      ((⟨1, "t", some "d", false, 0, 2⟩ : Todo).updated_at ≤ 5 →
        (⟨1, "t", some "d", false, 0, 2⟩ : Todo).updated_at ≤ post.updated_at) :=
  update_fields_frame (fun _ => Except.error .Timeout) [⟨1, "t", some "d", false, 0, 2⟩]
    1 ⟨none, none, some true⟩ 5 ⟨1, "t", some "d", false, 0, 2⟩ rfl

/-- C8: `list` returns all stored items (a permutation of the store) ordered by
`created_at` descending, and an empty store yields the empty list as a
non-error result. -/
theorem list_returns_all_sorted_desc (s : Store) :
    ∃ out : List Todo,
      (list_todos s).response = .ok out ∧
      out.Perm s ∧
      List.Sorted createdAtDesc out ∧
      (list_todos ([] : Store)).response = .ok ([] : List Todo) :=
  ⟨List.insertionSort createdAtDesc s, rfl,
    List.perm_insertionSort createdAtDesc s,
    List.sorted_insertionSort createdAtDesc s, rfl⟩

/-- C10: the update field-merge (shared by src/main_complex.rs lines 208-210 and
src/main_simple.rs lines 324-326) sets `description` to `Some value` when the
field is present and leaves it untouched when absent, so once a description is
non-null no update input can make it null again. -/
theorem update_never_clears_description (todo : Todo) (payload : UpdateTodoRequest)
    (now : Timestamp) (h : todo.description ≠ none) :
    (applyUpdate todo payload now).description ≠ none ∧
    (applyUpdate todo payload now).description =
      match payload.description with
      | some description => some description
      | none => todo.description := by
  refine ⟨?_, applyUpdate_description todo payload now⟩
  rw [applyUpdate_description]
  cases payload.description with
  | some d => simp
  | none => simpa using h

/-- C10 witness: an update supplying no description leaves a concrete non-null
description non-null. -/
theorem update_never_clears_description_witness :
    (applyUpdate ⟨1, "a", some "d", false, 0, 0⟩ ⟨none, none, none⟩ 9).description ≠ none ∧
    (applyUpdate ⟨1, "a", some "d", false, 0, 0⟩ ⟨none, none, none⟩ 9).description =
      match (⟨none, none, none⟩ : UpdateTodoRequest).description with
      | some description => some description
      | none => (⟨1, "a", some "d", false, 0, 0⟩ : Todo).description :=
  update_never_clears_description ⟨1, "a", some "d", false, 0, 0⟩ ⟨none, none, none⟩ 9
    (by decide)

/-- C4: `Repository.create_batch` commits items one at a time in input order:
for some cut point `i`, the resulting table is the input table plus exactly the
first `i` items in order; either `i` covers the whole batch and the items are
returned unchanged, or the `i`-th item's insert fails on the table holding the
first `i` commits, that very failure is surfaced as the batch result, and the
first `i` items remain committed (no rollback, nothing past `i` attempted). -/
theorem create_batch_commits_prefix_no_rollback (s : Store) (todos : List Todo) :
    ∃ i, i ≤ todos.length ∧
      (repo_create_batch s todos).1 = s ++ todos.take i ∧
      ((i = todos.length ∧ (repo_create_batch s todos).2 = .ok todos) ∨
       (∃ h : i < todos.length, ∃ e,
          repo_create (s ++ todos.take i) (todos.get ⟨i, h⟩) = .error e ∧
          (repo_create_batch s todos).2 = .error e)) := by
  induction todos generalizing s with
  | nil =>
    exact ⟨0, Nat.le_refl 0, by simp [repo_create_batch], Or.inl ⟨rfl, rfl⟩⟩
  | cons t rest ih =>
    rcases hc : repo_create s t with e | ⟨s2, c⟩
    · refine ⟨0, Nat.zero_le _, ?_, Or.inr ⟨Nat.succ_pos _, e, ?_, ?_⟩⟩
      · rw [repo_create_batch_cons_error s t rest e hc]
        simp
      · simpa using hc
      · rw [repo_create_batch_cons_error s t rest e hc]
    · obtain ⟨hs2, hct, -⟩ := repo_create_ok s t s2 c hc
      subst hs2
      subst hct
      obtain ⟨i, hi, hstore, hrest⟩ := ih (s ++ [c])
      refine ⟨i + 1, Nat.succ_le_succ hi, ?_, ?_⟩
      · rw [repo_create_batch_cons_ok s c rest _ _ hc]
        rw [hstore, List.take_succ_cons, List.append_assoc]
        rfl
      · rcases hrest with ⟨hlen, hok⟩ | ⟨hlt, e, hfail, herr⟩
        · refine Or.inl ⟨by rw [hlen, List.length_cons], ?_⟩
          rw [repo_create_batch_cons_ok s c rest _ _ hc, hok]
        · refine Or.inr ⟨Nat.succ_lt_succ hlt, e, ?_, ?_⟩
          · rw [List.take_succ_cons, ← List.singleton_append, ← List.append_assoc]
            exact hfail
          · rw [repo_create_batch_cons_ok s c rest _ _ hc, herr]

/-- C3 counterexample: a 2-item batch whose second insert fails (duplicate id)
after the first committed. The repository keeps the first item committed and
surfaces the failure, but the handler's response is the single opaque
`500 Batch creation failed` — no `.ok` response at all, so no structured
`total`/`created` partial report reaches the caller. -/
theorem create_batch_partial_failure_opaque :
    (repo_create_batch ([] : Store)
        [mkTodo ⟨"a", none⟩ 1 0 0, mkTodo ⟨"b", none⟩ 1 1 1]).1
      = [mkTodo ⟨"a", none⟩ 1 0 0] ∧
    (repo_create_batch ([] : Store)
        [mkTodo ⟨"a", none⟩ 1 0 0, mkTodo ⟨"b", none⟩ 1 1 1]).2
      = .error (.Database "UNIQUE constraint failed: todos.id") ∧
    ¬ ∃ resp : BatchCreateResponse,
        (create_batch (fun _ => Except.error .Timeout) ([] : Store)
            [(⟨"a", none⟩, 1, 0, 0), (⟨"b", none⟩, 1, 1, 1)]).response = .ok resp := by
  refine ⟨rfl, rfl, ?_⟩
  rintro ⟨resp, h⟩
  rw [show (create_batch (fun _ => Except.error .Timeout) ([] : Store)
      [(⟨"a", none⟩, 1, 0, 0), (⟨"b", none⟩, 1, 1, 1)]).response =
      Except.error { status := 500, message := "Batch creation failed" } from rfl] at h
  exact Except.noConfusion h

/-- C3 amended: the batch-create use case returns the structured
`{total, created, errors: []}` response (with `total` the number requested)
only when the repository commits the whole batch; when the repository fails
partway it returns a single opaque 500 error instead, although the items
committed before the failure do remain in the store. -/
theorem create_batch_structured_only_on_full_success (notifier : Notifier)
    (s : Store) (payload : List (CreateTodoRequest × Uuid × Timestamp × Timestamp)) :
    (create_batch notifier s payload).response =
      (match (repo_create_batch s
          (payload.map (fun p => mkTodo p.1 p.2.1 p.2.2.1 p.2.2.2))).2 with
       | .ok created => .ok { created := created, total := payload.length, errors := [] }
       | .error _ => .error { status := 500, message := "Batch creation failed" }) ∧
    (create_batch notifier s payload).store =
      (repo_create_batch s (payload.map (fun p => mkTodo p.1 p.2.1 p.2.2.1 p.2.2.2))).1 := by
  simp only [create_batch]
  rcases h : repo_create_batch s (payload.map fun p => mkTodo p.1 p.2.1 p.2.2.1 p.2.2.2)
    with ⟨s2, r⟩
  cases r <;> simp [h]

/-- C5 counterexample: the handler reads the clock twice
(`created_at: Utc::now(), updated_at: Utc::now()`); with distinct reads 0 and 1
the successfully created item has `created_at = 0 ≠ 1 = updated_at`, so the two
timestamps are not always exactly equal. -/
theorem create_distinct_timestamps_counterexample :
    (create_todo (fun _ => Except.error .Timeout) ([] : Store)
        ⟨"buy milk", none⟩ 1 0 1).response = .ok ⟨1, "buy milk", none, false, 0, 1⟩ ∧
    ¬ ∃ t : Todo,
        (create_todo (fun _ => Except.error .Timeout) ([] : Store)
            ⟨"buy milk", none⟩ 1 0 1).response = .ok t ∧
        t.created_at = t.updated_at := by
  refine ⟨rfl, ?_⟩
  rintro ⟨t, ht, heq⟩
  rw [show (create_todo (fun _ => Except.error .Timeout) ([] : Store)
      ⟨"buy milk", none⟩ 1 0 1).response
      = Except.ok (⟨1, "buy milk", none, false, 0, 1⟩ : Todo) from rfl] at ht
  cases ht
  exact absurd heq (by decide)

/-- C5 amended: a successful create returns an item whose `id` is the freshly
supplied one and is not already present in the store (the repository rejects
duplicate ids, so any create that succeeds has a unique id), and whose
`created_at`/`updated_at` are the two successive clock reads of the handler:
they are equal exactly when the two reads coincide, and `created_at ≤
updated_at` whenever the clock did not go backwards between them. -/
theorem create_fresh_id_and_clock_reads (notifier : Notifier) (s : Store)
    (payload : CreateTodoRequest) (freshId : Uuid) (now1 now2 : Timestamp) (t : Todo)
    (h : (create_todo notifier s payload freshId now1 now2).response = .ok t) :
    t.id = freshId ∧ (∀ r ∈ s, r.id ≠ freshId) ∧
    t.created_at = now1 ∧ t.updated_at = now2 ∧
    (now1 = now2 → t.created_at = t.updated_at) ∧
    (now1 ≤ now2 → t.created_at ≤ t.updated_at) := by
  rcases hc : repo_create s (mkTodo payload freshId now1 now2) with e | ⟨s2, c⟩
  · simp only [create_todo, hc] at h
    exact absurd h (by simp)
  · obtain ⟨-, hct, hnone⟩ := repo_create_ok s _ s2 c hc
    simp only [create_todo, hc, Except.ok.injEq] at h
    subst hct
    subst h
    refine ⟨rfl, ?_, rfl, rfl, fun h12 => h12, fun h12 => h12⟩
    rw [List.any_eq_false] at hnone
    intro r hr heq
    apply hnone r hr
    have hid : (mkTodo payload freshId now1 now2).id = freshId := rfl
    rw [hid, heq]
    exact beq_self_eq_true _

/-- C5 amended witness: a concrete successful create on a non-empty store. -/
theorem create_fresh_id_and_clock_reads_witness :
    (⟨2, "b", none, false, 4, 4⟩ : Todo).id = 2 ∧
    (∀ r ∈ [(⟨1, "a", none, false, 0, 0⟩ : Todo)], r.id ≠ 2) ∧
    (⟨2, "b", none, false, 4, 4⟩ : Todo).created_at = 4 ∧
    (⟨2, "b", none, false, 4, 4⟩ : Todo).updated_at = 4 ∧
    ((4 : Nat) = 4 → (⟨2, "b", none, false, 4, 4⟩ : Todo).created_at =
      (⟨2, "b", none, false, 4, 4⟩ : Todo).updated_at) ∧
    ((4 : Nat) ≤ 4 → (⟨2, "b", none, false, 4, 4⟩ : Todo).created_at ≤
      (⟨2, "b", none, false, 4, 4⟩ : Todo).updated_at) :=
  create_fresh_id_and_clock_reads (fun _ => Except.error .Timeout)
    [⟨1, "a", none, false, 0, 0⟩] ⟨"b", none⟩ 2 4 4 ⟨2, "b", none, false, 4, 4⟩ rfl

/-- C9 counterexample: no code path validates titles. A create whose request
title is the empty string stores an empty-titled item, and an update supplying
title `""` overwrites a non-empty stored title with the empty string — both as
successful operations — so it is not an invariant of the code that every stored
item has a non-empty title. -/
theorem empty_title_stored_counterexample :
    (create_todo (fun _ => Except.error .Timeout) ([] : Store) ⟨"", none⟩ 1 0 0).store
      = [⟨1, "", none, false, 0, 0⟩] ∧
    (update_todo (fun _ => Except.error .Timeout) [⟨1, "a", none, false, 0, 0⟩]
        1 ⟨some "", none, none⟩ 2).response = .ok ⟨1, "", none, false, 0, 2⟩ ∧
    (update_todo (fun _ => Except.error .Timeout) [⟨1, "a", none, false, 0, 0⟩]
        1 ⟨some "", none, none⟩ 2).store = [⟨1, "", none, false, 0, 2⟩] :=
  ⟨rfl, rfl, rfl⟩

/-- C9 amended: titles are stored verbatim with no validation; the non-empty
title invariant holds only conditionally — if every create/batch-create request
title is non-empty and every update that supplies a title supplies a non-empty
one, then every operation of the orchestration layer preserves the invariant
that all stored items have non-empty titles. -/
theorem title_invariant_conditional (notifier : Notifier) (s : Store) (op : Op)
    (hs : TitleInv s) (hop : opTitlesNonEmpty op) :
    TitleInv (applyOp notifier s op) := by
  cases op with
  | create payload freshId now1 now2 =>
    intro t ht
    simp only [applyOp] at ht
    rcases hc : repo_create s (mkTodo payload freshId now1 now2) with e | ⟨s2, c⟩
    · simp only [create_todo, hc] at ht
      exact hs t ht
    · obtain ⟨hs2, -, -⟩ := repo_create_ok s _ s2 c hc
      simp only [create_todo, hc] at ht
      rw [hs2] at ht
      rcases List.mem_append.mp ht with ht | ht
      · exact hs t ht
      · rcases List.mem_singleton.mp ht with rfl
        exact hop
  | createBatch payload =>
    intro t ht
    have htitles : ∀ x ∈ payload.map (fun p => mkTodo p.1 p.2.1 p.2.2.1 p.2.2.2),
        x.title ≠ "" := by
      intro x hx
      rcases List.mem_map.mp hx with ⟨p, hp, rfl⟩
      exact hop p hp
    have hall := repo_create_batch_store_pred (fun x => x.title ≠ "")
      (payload.map fun p => mkTodo p.1 p.2.1 p.2.2.1 p.2.2.2) s hs htitles
    simp only [applyOp] at ht
    rcases hb : repo_create_batch s (payload.map fun p => mkTodo p.1 p.2.1 p.2.2.1 p.2.2.2)
      with ⟨s2, r⟩
    have hstore : (create_batch notifier s payload).store = s2 := by
      cases r <;> simp [create_batch, hb]
    rw [hstore] at ht
    refine hall t ?_
    rw [hb]
    exact ht
  | update id payload now =>
    intro t ht
    simp only [applyOp] at ht
    cases hg : repo_get s id with
    | error e =>
      cases e <;> simp only [update_todo, hg] at ht <;> exact hs t ht
    | ok pre =>
      rw [update_todo_of_get notifier s id payload now pre hg] at ht
      simp only at ht
      rcases List.mem_map.mp ht with ⟨r, hr, rfl⟩
      by_cases hrid : (r.id == (applyUpdate pre payload now).id) = true
      · rw [if_pos hrid]
        show (applyUpdate pre payload now).title ≠ ""
        rw [applyUpdate_title]
        cases hpt : payload.title with
        | some x => exact hop x hpt
        | none => exact hs pre (repo_get_mem s id pre hg)
      · rw [if_neg hrid]
        exact hs r hr
  | delete id =>
    intro t ht
    rcases hd : repo_delete s id with e | s2
    · cases e <;> simp only [applyOp, delete_todo, hd] at ht <;> exact hs t ht
    · simp only [applyOp, delete_todo, hd] at ht
      have hfil : s2 = s.filter (fun r => !(r.id == id)) := by
        unfold repo_delete at hd
        by_cases hb : s.any (fun r => r.id == id) = true
        · rw [if_pos hb] at hd
          cases hd
          rfl
        · rw [if_neg hb] at hd
          cases hd
      rw [hfil] at ht
      exact hs t (List.mem_of_mem_filter ht)
  | deleteCompleted =>
    intro t ht
    simp only [applyOp, delete_completed, repo_delete_completed] at ht
    exact hs t (List.mem_of_mem_filter ht)

/-- C9 amended witness: an update that supplies the non-empty title "x"
preserves the non-empty-title invariant on a concrete store. -/
theorem title_invariant_conditional_witness :
    TitleInv (applyOp (fun _ => Except.error .Timeout) [⟨1, "a", none, false, 0, 0⟩]
      (.update 1 ⟨some "x", none, some true⟩ 3)) :=
  title_invariant_conditional (fun _ => Except.error .Timeout)
    [⟨1, "a", none, false, 0, 0⟩] (.update 1 ⟨some "x", none, some true⟩ 3)
    (by decide)
    (by
      show ∀ x, (some "x" : Option String) = some x → x ≠ ""
      intro x hx
      injection hx with h2
      subst h2
      decide)

end RustTodo
